import Mathlib

/-!
Verification of the NCBI EUtils proxy server (search / papers / paper
endpoints). The JavaScript route handlers are shallowly embedded: each XML
article element is modelled as a record holding exactly the data the
handler's DOM queries read, and each handler becomes a pure function of its
request parameters and of the upstream call outcomes, returning the HTTP
response together with the number of outbound NCBI calls it issued.
-/

/-- JavaScript string truthiness for a possibly-absent attribute or text:
`null`/`undefined` and the empty string are falsy. -/
def jsTruthy : Option String → Bool
  | none => false
  | some s => s != ""

/-- JavaScript `a || b` on strings: `a` unless it is empty. -/
def jsOr (a b : String) : String :=
  if a = "" then b else a

/-- JavaScript `String.prototype.trim`: drop whitespace at both ends. -/
def jsTrim (s : String) : String :=
  String.mk (((s.toList.dropWhile Char.isWhitespace).reverse.dropWhile
    Char.isWhitespace).reverse)

/-- ASCII lower-casing of one character, as `toLowerCase` does on ASCII. -/
def lowerChar (c : Char) : Char :=
  if 'A' ≤ c ∧ c ≤ 'Z' then Char.ofNat (c.toNat + 32) else c

/-- JavaScript `String.prototype.toLowerCase` (ASCII range). -/
def strToLower (s : String) : String :=
  String.mk (s.toList.map lowerChar)

/-- JavaScript `String.prototype.startsWith`. -/
def strStartsWith (s pre : String) : Bool :=
  pre.toList.isPrefixOf s.toList

/-- JavaScript `String.prototype.endsWith`. -/
def strEndsWith (s post : String) : Bool :=
  post.toList.isSuffixOf s.toList

/-- JavaScript `String.prototype.includes`: substring occurrence. -/
def strContains (hay needle : String) : Bool :=
  go needle.toList hay.toList
where
  go (needle : List Char) : List Char → Bool
    | [] => needle.isPrefixOf []
    | c :: rest => needle.isPrefixOf (c :: rest) || go needle rest

/-- JavaScript `Array.prototype.join(sep)`. -/
def joinSep (sep : String) : List String → String
  | [] => ""
  | [x] => x
  | x :: y :: xs => x ++ sep ++ joinSep sep (y :: xs)

/-- JavaScript `String.prototype.padStart(2, '0')`: left-pad with zeros to
width 2 (strings already at least 2 long are unchanged). -/
def padStart2 (s : String) : String :=
  String.mk (List.replicate (2 - s.length) '0' ++ s.toList)

/-- Value of a digit run, as `parseInt` accumulates it. -/
def digitsToNat (ds : List Char) : Nat :=
  ds.foldl (fun acc c => acc * 10 + (c.toNat - '0'.toNat)) 0

/-- JavaScript `parseInt(s, 10)`: skip leading whitespace, read an optional
sign and then the longest run of decimal digits; `none` models `NaN`. -/
def parseIntJS (s : String) : Option Int :=
  let l := s.toList.dropWhile Char.isWhitespace
  match l with
  | '-' :: r => (lead r).map (fun n => -(n : Int))
  | '+' :: r => (lead r).map (fun n => (n : Int))
  | r => (lead r).map (fun n => (n : Int))
where
  lead (l : List Char) : Option Nat :=
    let ds := l.takeWhile Char.isDigit
    if ds = [] then none else some (digitsToNat ds)

/-- A JavaScript runtime value, as far as `cleanPmcId`'s `typeof` test
distinguishes them. -/
inductive JsVal where
  | vstr (s : String)
  | vnum (n : Int)
  | vbool (b : Bool)
  | vnull
  | vundefined
deriving DecidableEq

/-- Whether the value is a string (`typeof id === 'string'`). -/
def JsVal.isStr : JsVal → Bool
  | .vstr _ => true
  | _ => false

/-- Test of the regex `/^(PMC|pmc)/i`: do the first three characters spell
`pmc` in any casing? -/
def startsWithPmcCI (s : String) : Bool :=
  match s.toList with
  | c1 :: c2 :: c3 :: _ =>
    (c1 == 'P' || c1 == 'p') && (c2 == 'M' || c2 == 'm') && (c3 == 'C' || c3 == 'c')
  | _ => false

/-- `cleanPmcId` on a string (src/api/papers.js:26-31, src/server.js:134-139):
`id.replace(/^(PMC|pmc)/i, '')` removes one leading case-insensitive `PMC`. -/
def cleanPmcId (s : String) : String :=
  if startsWithPmcCI s then String.mk (s.toList.drop 3) else s

/-- `cleanPmcId` on an arbitrary value: the `typeof id === 'string'` guard
passes non-strings through unchanged. -/
def cleanPmcIdVal : JsVal → JsVal
  | .vstr s => .vstr (cleanPmcId s)
  | v => v

/-- C2: the claim is refuted on `"PMCPMC123"`: one application leaves
`"PMC123"`, which still starts with the prefix, and a second application
strips further, so sanitization is neither prefix-free nor idempotent. -/
theorem C2_counterexample :
    cleanPmcId "PMCPMC123" = "PMC123"
    ∧ startsWithPmcCI (cleanPmcId "PMCPMC123") = true
    ∧ cleanPmcId (cleanPmcId "PMCPMC123") ≠ cleanPmcId "PMCPMC123" := by
  decide

/-- C2 (amended): the sanitizer strips exactly one leading case-insensitive
`PMC` from string inputs and returns non-string inputs unchanged; on strings
that do not begin with two consecutive case-insensitive `PMC` prefixes,
sanitizing twice equals sanitizing once. -/
theorem C2_amended :
    (∀ c1 c2 c3 rest, (c1 = 'P' ∨ c1 = 'p') → (c2 = 'M' ∨ c2 = 'm') →
      (c3 = 'C' ∨ c3 = 'c') →
      cleanPmcId (String.mk (c1 :: c2 :: c3 :: rest)) = String.mk rest)
    ∧ (∀ s, startsWithPmcCI s = false → cleanPmcId s = s)
    ∧ (∀ v : JsVal, v.isStr = false → cleanPmcIdVal v = v)
    ∧ (∀ s, startsWithPmcCI s = false
        ∨ startsWithPmcCI (String.mk (s.toList.drop 3)) = false →
        cleanPmcId (cleanPmcId s) = cleanPmcId s) := by
  refine ⟨?_, ?_, ?_, ?_⟩
  · intro c1 c2 c3 rest h1 h2 h3
    rcases h1 with rfl | rfl <;> rcases h2 with rfl | rfl <;>
      rcases h3 with rfl | rfl <;> simp [cleanPmcId, startsWithPmcCI]
  · intro s h
    simp [cleanPmcId, h]
  · intro v h
    cases v <;> simp_all [JsVal.isStr, cleanPmcIdVal]
  · intro s h
    by_cases hs : startsWithPmcCI s
    · have hd : startsWithPmcCI (String.mk (s.toList.drop 3)) = false := by
        rcases h with h | h
        · rw [hs] at h; cases h
        · exact h
      simp only [String.toList] at hd
      simp [cleanPmcId, hs, hd, String.toList]
    · simp [cleanPmcId, hs]

/-- C2 witness: concrete instances of the amended statement. -/
theorem C2_amended_witness :
    cleanPmcId (String.mk ['p', 'M', 'c', '1']) = String.mk ['1']
    ∧ cleanPmcIdVal (.vnum 5) = .vnum 5
    ∧ cleanPmcId (cleanPmcId "pmc123") = cleanPmcId "pmc123" :=
  ⟨C2_amended.1 'p' 'M' 'c' ['1'] (Or.inr rfl) (Or.inl rfl) (Or.inr rfl),
   C2_amended.2.2.1 (.vnum 5) (by decide),
   C2_amended.2.2.2 "pmc123" (Or.inr (by decide))⟩

/-! ## XML article model

Each structure holds exactly the data that the handler's DOM queries read
from an article element. An `Option` field is `none` when the queried
element or attribute is absent; when present it carries the `textContent`
or attribute string. List fields come from `querySelectorAll` in document
order; `selfUri` is the first `self-uri` element, as `querySelector`
returns it. -/

/-- `Year`/`Month`/`Day` children of a `PubDate` or `pub-date` element. -/
structure PubDateEl where
  year : Option String
  month : Option String
  day : Option String
deriving DecidableEq

/-- One `Author` element of a PubMed `AuthorList`. -/
structure AuthorEl where
  foreName : Option String
  lastName : Option String
  collectiveName : Option String
deriving DecidableEq

/-- One `ArticleId` element: its `IdType` attribute and text. -/
structure ArticleIdEl where
  idType : Option String
  text : String
deriving DecidableEq

/-- A `PubmedArticle` element, as read by the PubMed branch. -/
structure PubmedArticle where
  pmid : Option String
  articleTitle : Option String
  /-- `Abstract > AbstractText` segments: `Label` attribute and text. -/
  abstractTexts : List (Option String × String)
  authorList : Option (List AuthorEl)
  medlineTA : Option String
  journalTitle : Option String
  pubDate : Option PubDateEl
  /-- text of `PubStatus > Year`, queried on the whole article. -/
  pubStatusYear : Option String
  articleIdList : Option (List ArticleIdEl)
deriving DecidableEq

/-- A `name` element of a `contrib[contrib-type='author']`. -/
structure NameEl where
  givenNames : Option String
  surname : Option String
  /-- raw `textContent` of the whole `name` element (fallback). -/
  text : String
deriving DecidableEq

/-- A `self-uri` element: `content-type` and `xlink:href` attributes. -/
structure SelfUriEl where
  contentType : Option String
  href : Option String
deriving DecidableEq

/-- An `ext-link` element: `ext-link-type` and `xlink:href` attributes
(the code reads both but only consults the href). -/
structure ExtLinkEl where
  extLinkType : Option String
  href : Option String
deriving DecidableEq

/-- A PMC `article` element, as read by the PMC branch. -/
structure PmcArticle where
  articleIdPmc : Option String
  articleIdPmid : Option String
  articleTitle : Option String
  /-- texts of the `abstract p` paragraphs. -/
  abstractPs : List String
  contribNames : List NameEl
  journalTitle : Option String
  pubDate : Option PubDateEl
  selfUri : Option SelfUriEl
  extLinks : List ExtLinkEl
deriving DecidableEq

/-- The uniform paper record pushed onto `papers` (batch endpoint shape). -/
structure Paper where
  pmcid : String
  uid : String
  title : String
  articletitle : String
  sortfirstauthor : String
  authors : String
  authorsArray : List String
  source : String
  pubdate : String
  pdfUrl : String
deriving DecidableEq

/-! ## Field extraction (src/api/papers.js:82-238, duplicated in
src/server.js:178-334) -/

/-- Date composition shared by all three extraction sites: the
`year && month && day` / `year && month` / `year` cascade over the trimmed
texts, with the site-specific value when even the year is empty. -/
def composeDate (y m d fallback : String) : String :=
  if y ≠ "" ∧ m ≠ "" ∧ d ≠ "" then y ++ "-" ++ padStart2 m ++ "-" ++ padStart2 d
  else if y ≠ "" ∧ m ≠ "" then y ++ "-" ++ padStart2 m
  else if y ≠ "" then y
  else fallback

/-- PubMed `pubdate` (src/api/papers.js:112-127): built from `PubDate`
children; when the year is missing the code falls back to the trimmed
`PubStatus > Year` text, but only inside the `if (pubDateElement)` branch —
without a `PubDate` element the date stays empty. -/
def pubmedDate (a : PubmedArticle) : String :=
  match a.pubDate with
  | none => ""
  | some pd =>
    composeDate (jsTrim (pd.year.getD "")) (jsTrim (pd.month.getD ""))
      (jsTrim (pd.day.getD "")) (jsTrim (a.pubStatusYear.getD ""))

/-- PubMed abstract: labelled `AbstractText` segments joined by a space,
else the literal placeholder. -/
def pubmedAbstract (ts : List (Option String × String)) : String :=
  if ts = [] then "No abstract available."
  else joinSep " " (ts.map fun t =>
    if jsTruthy t.1 then (t.1.getD "") ++ ": " ++ jsTrim t.2 else jsTrim t.2)

/-- One PubMed author display name: `ForeName LastName` trimmed, falling
back to `CollectiveName`, falling back to `"Unknown"`. -/
def pubmedAuthorName (au : AuthorEl) : String :=
  let fullName := jsTrim ((au.foreName.getD "") ++ " " ++ (au.lastName.getD ""))
  if fullName ≠ "" then fullName
  else if (au.collectiveName.getD "") ≠ "" then au.collectiveName.getD ""
  else "Unknown"

/-- PubMed author list: names mapped then filtered of empty/`"Unknown"`
entries; an absent `AuthorList` yields the empty list. -/
def pubmedAuthors (al : Option (List AuthorEl)) : List String :=
  match al with
  | none => []
  | some lst => (lst.map pubmedAuthorName).filter (fun n => n != "" && n != "Unknown")

/-- First `ArticleId` of the identifier list whose `IdType` is `pmc`. -/
def pubmedPmcId (ail : Option (List ArticleIdEl)) : String :=
  match ail with
  | none => ""
  | some lst =>
    match lst.find? (fun el => el.idType == some "pmc") with
    | some el => el.text
    | none => ""

/-- The constructed PMC article PDF URL template. -/
def pmcTemplate (pmcid : String) : String :=
  "https://www.ncbi.nlm.nih.gov/pmc/articles/PMC" ++ pmcid ++ "/pdf/"

/-- PubMed-branch record extraction (src/api/papers.js:84-155). -/
def normalizePubmed (a : PubmedArticle) : Paper :=
  let authors := pubmedAuthors a.authorList
  let cleanedPmcId := cleanPmcId (pubmedPmcId a.articleIdList)
  { pmcid := cleanedPmcId
    uid := a.pmid.getD ""
    title := jsTrim (a.articleTitle.getD "")
    articletitle := jsTrim (pubmedAbstract a.abstractTexts)
    sortfirstauthor := authors.headD "Unknown"
    authors := joinSep ", " authors
    authorsArray := authors
    source := jsTrim (jsOr (a.medlineTA.getD "") (a.journalTitle.getD ""))
    pubdate := pubmedDate a
    pdfUrl := if cleanedPmcId ≠ "" then pmcTemplate cleanedPmcId else "" }

/-- PMC `pubdate`: same cascade over lowercase element names; there is no
fallback element, so the initial value survives when the year is empty
(`""` on the first pass, the record's previous date during enrichment). -/
def pmcDate (pd? : Option PubDateEl) (fallback : String) : String :=
  match pd? with
  | none => fallback
  | some pd =>
    composeDate (jsTrim (pd.year.getD "")) (jsTrim (pd.month.getD ""))
      (jsTrim (pd.day.getD "")) fallback

/-- PMC abstract: `abstract p` texts joined by a space, else placeholder. -/
def pmcAbstract (ps : List String) : String :=
  if ps = [] then "No abstract available." else joinSep " " ps

/-- One PMC author display name: `given-names surname` trimmed, falling
back to the raw element text. -/
def pmcName (n : NameEl) : String :=
  let fullName := jsTrim ((n.givenNames.getD "") ++ " " ++ (n.surname.getD ""))
  if fullName ≠ "" then fullName else jsTrim n.text

/-- PMC author list: names mapped then filtered of empty entries. -/
def pmcAuthors (ns : List NameEl) : List String :=
  (ns.map pmcName).filter (fun n => n != "")

/-- The sanitized `article-id[pub-id-type='pmc']` of a PMC article. -/
def pmcIdOfArticle (a : PmcArticle) : String :=
  cleanPmcId (a.articleIdPmc.getD "")

/-- The `self-uri` PDF condition: a truthy `content-type` whose lowercase
form contains `"pdf"`, and a truthy `xlink:href`. -/
def selfUriPdfCond (su : SelfUriEl) : Bool :=
  jsTruthy su.contentType
    && strContains (strToLower (su.contentType.getD "")) "pdf"
    && jsTruthy su.href

/-- Whether the article's (first) `self-uri` passes the PDF condition. -/
def selfUriGivesPdf (a : PmcArticle) : Bool :=
  match a.selfUri with
  | some su => selfUriPdfCond su
  | none => false

/-- First `ext-link` whose truthy href ends (case-insensitively) in
`.pdf`, as the `for`/`break` loop finds it. -/
def firstPdfLink : List ExtLinkEl → Option String
  | [] => none
  | l :: rest =>
    if jsTruthy l.href && strEndsWith (strToLower (l.href.getD "")) ".pdf"
    then some (l.href.getD "")
    else firstPdfLink rest

/-- PMC `pdfUrl` chain (src/api/papers.js:197-220): the `self-uri` branch
(absolute href kept, relative one rewritten through the template), then the
`ext-link` scan, then the constructed template URL. -/
def pmcPdfUrl (a : PmcArticle) (pmcIdInXml : String) : String :=
  let fromSelf :=
    match a.selfUri with
    | some su =>
      if selfUriPdfCond su then
        if strStartsWith (su.href.getD "") "http" then su.href.getD ""
        else pmcTemplate pmcIdInXml
      else ""
    | none => ""
  if fromSelf ≠ "" then fromSelf
  else
    match firstPdfLink a.extLinks with
    | some h => h
    | none => pmcTemplate pmcIdInXml

/-- PMC-branch record extraction (src/api/papers.js:159-233); this is the
formalization of the PMC column of spec §4.2. -/
def normalizePmc (a : PmcArticle) : Paper :=
  let pmcIdInXml := pmcIdOfArticle a
  let authors := pmcAuthors a.contribNames
  { pmcid := pmcIdInXml
    uid := a.articleIdPmid.getD ""
    title := jsTrim (a.articleTitle.getD "")
    articletitle := jsTrim (pmcAbstract a.abstractPs)
    sortfirstauthor := authors.headD "Unknown"
    authors := joinSep ", " authors
    authorsArray := authors
    source := jsTrim (a.journalTitle.getD "")
    pubdate := pmcDate a.pubDate ""
    pdfUrl := pmcPdfUrl a pmcIdInXml }

/-- A truthy optional string is non-empty after `getD ""`. -/
theorem jsTruthy_getD {o : Option String} (h : jsTruthy o = true) :
    o.getD "" ≠ "" := by
  cases o with
  | none => simp [jsTruthy] at h
  | some s => simpa [jsTruthy] using h

/-- The constructed PMC template URL is never the empty string. -/
theorem pmcTemplate_ne (x : String) : pmcTemplate x ≠ "" := by
  intro h
  have h2 : (pmcTemplate x).data = ("" : String).data := by rw [h]
  have h3 : (pmcTemplate x).data
      = "https://www.ncbi.nlm.nih.gov/pmc/articles/PMC".data ++ x.data ++ "/pdf/".data :=
    rfl
  rw [h3] at h2
  simp only [show ("" : String).data = [] from rfl, List.append_eq_nil] at h2
  have : "https://www.ncbi.nlm.nih.gov/pmc/articles/PMC".data ≠ [] := by decide
  exact this h2.1.1

/-- With no usable `self-uri`, the PDF chain is the `ext-link` scan, then
the template. -/
theorem pmcPdfUrl_noSelf (a : PmcArticle) (pmcid : String)
    (hno : selfUriGivesPdf a = false) :
    pmcPdfUrl a pmcid =
      match firstPdfLink a.extLinks with
      | some h => h
      | none => pmcTemplate pmcid := by
  unfold pmcPdfUrl
  cases hsu : a.selfUri with
  | none => simp
  | some su =>
    have hc : selfUriPdfCond su = false := by
      simpa [selfUriGivesPdf, hsu] using hno
    simp [hc]

/-- C3: the PMC `pdfUrl` follows the fallback chain: (1) a `self-uri` whose
content-type contains "pdf" and which carries an href — used as-is when it
starts with `http`, else replaced by the template URL; else (2) the first
`ext-link` whose href ends in `.pdf`; else (3) the template URL built from
the sanitized pmcid. -/
theorem C3 (a : PmcArticle) :
    (∀ su, a.selfUri = some su → selfUriPdfCond su = true →
      (normalizePmc a).pdfUrl =
        if strStartsWith (su.href.getD "") "http" then su.href.getD ""
        else pmcTemplate (pmcIdOfArticle a))
    ∧ (selfUriGivesPdf a = false → ∀ h, firstPdfLink a.extLinks = some h →
        (normalizePmc a).pdfUrl = h)
    ∧ (selfUriGivesPdf a = false → firstPdfLink a.extLinks = none →
        (normalizePmc a).pdfUrl = pmcTemplate (pmcIdOfArticle a)) := by
  refine ⟨?_, ?_, ?_⟩
  · intro su hsu hcond
    have htr : jsTruthy su.href = true := by
      have := hcond
      simp only [selfUriPdfCond, Bool.and_eq_true] at this
      exact this.2
    have hhref : su.href.getD "" ≠ "" := jsTruthy_getD htr
    show pmcPdfUrl a (pmcIdOfArticle a) = _
    unfold pmcPdfUrl
    rw [hsu]
    simp only [hcond, if_true]
    by_cases hsw : strStartsWith (su.href.getD "") "http"
    · simp [hsw, hhref]
    · simp [hsw, pmcTemplate_ne]
  · intro hno h hfl
    show pmcPdfUrl a (pmcIdOfArticle a) = _
    rw [pmcPdfUrl_noSelf a _ hno, hfl]
  · intro hno hfl
    show pmcPdfUrl a (pmcIdOfArticle a) = _
    rw [pmcPdfUrl_noSelf a _ hno, hfl]

/-- Article of spec §8's example: `article-id[pub-id-type=pmc]` text
`"9999"`, and no PDF links of any kind. -/
def c3Article : PmcArticle :=
  { articleIdPmc := some "9999", articleIdPmid := none, articleTitle := none,
    abstractPs := [], contribNames := [], journalTitle := none,
    pubDate := none, selfUri := none, extLinks := [] }

/-- C3 witness: the example article yields pmcid `"9999"` and the template
URL, which ends in `PMC9999/pdf/`. -/
theorem C3_witness :
    (normalizePmc c3Article).pdfUrl
      = "https://www.ncbi.nlm.nih.gov/pmc/articles/PMC9999/pdf/"
    ∧ (normalizePmc c3Article).pmcid = "9999"
    ∧ strEndsWith "https://www.ncbi.nlm.nih.gov/pmc/articles/PMC9999/pdf/"
        "PMC9999/pdf/" = true :=
  ⟨((C3 c3Article).2.2 rfl rfl).trans (by decide), by decide, by decide⟩

/-- C4: with non-empty trimmed year, month and day under `PubDate`, the
PubMed `pubdate` is `YYYY-MM-DD` with month and day left-padded with `'0'`
to width 2, and the padding behaves uniformly in the source length: the
result has length `max 2 n`, one-character parts gain a single `'0'`, and
parts of two or more characters are unchanged. -/
theorem C4 (a : PubmedArticle) (pd : PubDateEl) (y m d : String)
    (hpd : a.pubDate = some pd)
    (hy : jsTrim (pd.year.getD "") = y) (hm : jsTrim (pd.month.getD "") = m)
    (hd : jsTrim (pd.day.getD "") = d)
    (hy0 : y ≠ "") (hm0 : m ≠ "") (hd0 : d ≠ "") :
    (normalizePubmed a).pubdate = y ++ "-" ++ padStart2 m ++ "-" ++ padStart2 d
    ∧ (∀ s : String, (padStart2 s).length = max 2 s.length)
    ∧ (∀ s : String, s.length = 1 → padStart2 s = "0" ++ s)
    ∧ (∀ s : String, 2 ≤ s.length → padStart2 s = s) := by
  refine ⟨?_, ?_, ?_, ?_⟩
  · show pubmedDate a = _
    simp only [pubmedDate, hpd]
    simp [composeDate, hy, hm, hd, hy0, hm0, hd0]
  · intro s
    have h1 : (padStart2 s).length = (2 - s.length) + s.length := by
      show (List.replicate (2 - s.length) '0' ++ s.toList).length = _
      rw [List.length_append, List.length_replicate]
      rfl
    omega
  · intro s h
    show String.mk (List.replicate (2 - s.length) '0' ++ s.toList) = _
    rw [h]
    rfl
  · intro s h
    show String.mk (List.replicate (2 - s.length) '0' ++ s.toList) = s
    rw [Nat.sub_eq_zero_of_le h]
    rfl

/-- Article with a three-part date `2021 / 3 / 7`. -/
def c4Article : PubmedArticle :=
  { pmid := none, articleTitle := none, abstractTexts := [], authorList := none,
    medlineTA := none, journalTitle := none,
    pubDate := some { year := some "2021", month := some "3", day := some "7" },
    pubStatusYear := none, articleIdList := none }

/-- C4 witness: year `2021`, month `3`, day `7` produce `"2021-03-07"`. -/
theorem C4_witness : (normalizePubmed c4Article).pubdate = "2021-03-07" :=
  ((C4 c4Article { year := some "2021", month := some "3", day := some "7" }
    "2021" "3" "7" rfl (by decide) (by decide) (by decide) (by decide)
    (by decide) (by decide)).1).trans (by decide)

/-- Article with no `PubDate` element but a `PubStatus > Year` of `1999`. -/
def c5Article : PubmedArticle :=
  { pmid := none, articleTitle := none, abstractTexts := [], authorList := none,
    medlineTA := none, journalTitle := none, pubDate := none,
    pubStatusYear := some "1999", articleIdList := none }

/-- C5: the claim is refuted when the `PubDate` element is absent entirely:
none of Year/Month/Day yields a value, a `PubStatus > Year` of `"1999"` is
present, yet the produced `pubdate` is `""` — the fallback only runs inside
the `if (pubDateElement)` branch. -/
theorem C5_counterexample :
    c5Article.pubDate = none
    ∧ c5Article.pubStatusYear = some "1999"
    ∧ (normalizePubmed c5Article).pubdate = ""
    ∧ (normalizePubmed c5Article).pubdate
        ≠ jsTrim (c5Article.pubStatusYear.getD "") := by
  decide

/-- C5 (amended): when a `PubDate` element is present but none of its Year,
Month or Day yields a value, `pubdate` falls back to the trimmed
`PubStatus > Year` text (empty when that is absent too); when no `PubDate`
element exists at all, `pubdate` is empty with no fallback. -/
theorem C5_amended (a : PubmedArticle) :
    (∀ pd, a.pubDate = some pd →
      jsTrim (pd.year.getD "") = "" → jsTrim (pd.month.getD "") = "" →
      jsTrim (pd.day.getD "") = "" →
      (normalizePubmed a).pubdate = jsTrim (a.pubStatusYear.getD ""))
    ∧ (a.pubDate = none → (normalizePubmed a).pubdate = "") := by
  constructor
  · intro pd hpd hy hm hd
    show pubmedDate a = _
    simp only [pubmedDate, hpd]
    simp [composeDate, hy, hm, hd]
  · intro hpd
    show pubmedDate a = ""
    simp [pubmedDate, hpd]

/-- Article with an empty `PubDate` element and `PubStatus > Year` text
`" 1999 "`. -/
def c5bArticle : PubmedArticle :=
  { pmid := none, articleTitle := none, abstractTexts := [], authorList := none,
    medlineTA := none, journalTitle := none,
    pubDate := some { year := none, month := none, day := none },
    pubStatusYear := some " 1999 ", articleIdList := none }

/-- C5 witness: the fallback fires only when the empty `PubDate` element is
present. -/
theorem C5_amended_witness :
    (normalizePubmed c5bArticle).pubdate = "1999"
    ∧ (normalizePubmed c5Article).pubdate = "" :=
  ⟨((C5_amended c5bArticle).1 { year := none, month := none, day := none }
      rfl (by decide) (by decide) (by decide)).trans (by decide),
   (C5_amended c5Article).2 rfl⟩

/-! ## Enrichment pass (src/api/papers.js:240-331) -/

/-- JavaScript `Array.prototype.findIndex`: index of the first element
satisfying the test (`none` models `-1`). -/
def findIdxAux {α : Type*} (p : α → Bool) : List α → Option Nat
  | [] => none
  | x :: xs => if p x then some 0 else (findIdxAux p xs).map (· + 1)

/-- A found index is in bounds. -/
theorem findIdxAux_lt {α : Type*} (p : α → Bool) :
    ∀ (l : List α) (k : Nat), findIdxAux p l = some k → k < l.length := by
  intro l
  induction l with
  | nil => intro k h; simp [findIdxAux] at h
  | cons x xs ih =>
    intro k h
    by_cases hp : p x
    · simp [findIdxAux, hp] at h
      simp only [List.length_cons]
      omega
    · simp [findIdxAux, hp] at h
      obtain ⟨k', hk', rfl⟩ := h
      have := ih k' hk'
      simp only [List.length_cons]
      omega

/-- The element at a found index satisfies the test. -/
theorem findIdxAux_pred {α : Type*} (p : α → Bool) :
    ∀ (l : List α) (k : Nat), findIdxAux p l = some k →
      ∃ x, l.get? k = some x ∧ p x = true := by
  intro l
  induction l with
  | nil => intro k h; simp [findIdxAux] at h
  | cons x xs ih =>
    intro k h
    by_cases hp : p x
    · simp [findIdxAux, hp] at h
      exact ⟨x, by simp [← h], hp⟩
    · simp [findIdxAux, hp] at h
      obtain ⟨k', hk', rfl⟩ := h
      obtain ⟨y, hy, hpy⟩ := ih k' hk'
      exact ⟨y, by simpa using hy, hpy⟩

/-- Elements before a found index fail the test (`findIndex` returns the
first match). -/
theorem findIdxAux_first {α : Type*} (p : α → Bool) :
    ∀ (l : List α) (k : Nat), findIdxAux p l = some k →
      ∀ m x, m < k → l.get? m = some x → p x = false := by
  intro l
  induction l with
  | nil => intro k h; simp [findIdxAux] at h
  | cons x xs ih =>
    intro k h m y hm hy
    by_cases hp : p x
    · simp [findIdxAux, hp] at h
      omega
    · simp [findIdxAux, hp] at h
      obtain ⟨k', hk', rfl⟩ := h
      cases m with
      | zero =>
        simp only [List.get?_cons_zero, Option.some.injEq] at hy
        subst hy
        simpa using hp
      | succ m' =>
        exact ih k' hk' m' y (by omega) (by simpa using hy)

/-- `set` leaves other positions unchanged. -/
theorem listSetGetOther {α : Type*} :
    ∀ (l : List α) (i j : Nat) (a : α), i ≠ j → (l.set i a).get? j = l.get? j := by
  intro l
  induction l with
  | nil => intro i j a _; simp
  | cons x xs ih =>
    intro i j a h
    cases i with
    | zero =>
      cases j with
      | zero => exact absurd rfl h
      | succ j' => simp
    | succ i' =>
      cases j with
      | zero => simp
      | succ j' =>
        simp only [List.set_cons_succ, List.get?_cons_succ]
        exact ih i' j' a (by omega)

/-- `set` writes the given value at an in-bounds position. -/
theorem listSetGetSame {α : Type*} :
    ∀ (l : List α) (i : Nat) (a : α), i < l.length → (l.set i a).get? i = some a := by
  intro l
  induction l with
  | nil => intro i a h; simp at h
  | cons x xs ih =>
    intro i a h
    cases i with
    | zero => simp
    | succ i' =>
      simp only [List.set_cons_succ, List.get?_cons_succ]
      exact ih i' a (by simpa using h)

/-- Default for the (never-needed) out-of-bounds record read. -/
def emptyPaper : Paper :=
  { pmcid := "", uid := "", title := "", articletitle := "",
    sortfirstauthor := "", authors := "", authorsArray := [],
    source := "", pubdate := "", pdfUrl := "" }

/-- The in-place overlay of one returned PMC article onto a matched record
(src/api/papers.js:261-327): every "...InXml" value falls back to the
record's existing field when the article does not supply it, except authors
(always replaced by the PMC join) and pdfUrl (always recomputed). `uid` and
`pmcid` are preserved by the spread. -/
def overlay (p : Paper) (a : PmcArticle) (pmcIdInXml : String) : Paper :=
  let authorsInXml := pmcAuthors a.contribNames
  { p with
    title := jsTrim (jsOr (a.articleTitle.getD "") p.title)
    articletitle := jsTrim (if a.abstractPs = [] then p.articletitle
      else joinSep " " a.abstractPs)
    sortfirstauthor := authorsInXml.headD p.sortfirstauthor
    authors := joinSep ", " authorsInXml
    authorsArray := authorsInXml
    source := jsTrim (jsOr (a.journalTitle.getD "") p.source)
    pubdate := pmcDate a.pubDate p.pubdate
    pdfUrl := pmcPdfUrl a pmcIdInXml }

/-- Processing of one returned PMC article: `findIndex` on the sanitized
pmcid, and overlay of the first matching record when one exists. -/
def enrichOne (papers : List Paper) (a : PmcArticle) : List Paper :=
  match findIdxAux (fun p => p.pmcid == pmcIdOfArticle a) papers with
  | none => papers
  | some i =>
    papers.set i (overlay ((papers.get? i).getD emptyPaper) a (pmcIdOfArticle a))

/-- The enrichment loop over all returned PMC articles, in document order. -/
def enrichAll (papers : List Paper) (arts : List PmcArticle) : List Paper :=
  arts.foldl enrichOne papers

/-- `enrichOne` never changes the `pmcid` at any position. -/
theorem enrichOne_pmcid (s : List Paper) (a : PmcArticle) (idx : Nat) :
    ((enrichOne s a).get? idx).map Paper.pmcid = (s.get? idx).map Paper.pmcid := by
  unfold enrichOne
  cases hf : findIdxAux (fun p => p.pmcid == pmcIdOfArticle a) s with
  | none => rfl
  | some k =>
    by_cases hk : k = idx
    · subst hk
      have hlt := findIdxAux_lt _ s k hf
      rw [listSetGetSame _ k _ hlt]
      obtain ⟨y, hy, _⟩ := findIdxAux_pred _ s k hf
      rw [hy]
      simp [overlay, hy]
    · rw [listSetGetOther s k idx _ hk]

/-- C10: the join uses `findIndex`, so each returned PMC article is matched
to the first record whose sanitized pmcid equals its own; a record that has
an earlier record with the same pmcid is never the first match and survives
the whole enrichment pass unchanged. -/
theorem C10 (papers : List Paper) (arts : List PmcArticle) (i j : Nat)
    (pi pj : Paper) (hij : i < j)
    (hi : papers.get? i = some pi) (hj : papers.get? j = some pj)
    (hdup : pi.pmcid = pj.pmcid) :
    (enrichAll papers arts).get? j = some pj := by
  suffices H : ∀ (arts : List PmcArticle) (s : List Paper),
      (∀ idx, (s.get? idx).map Paper.pmcid = (papers.get? idx).map Paper.pmcid) →
      s.get? j = some pj →
      (List.foldl enrichOne s arts).get? j = some pj by
    exact H arts papers (fun _ => rfl) hj
  intro arts
  induction arts with
  | nil => intro s _ hsj; simpa using hsj
  | cons a rest ih =>
    intro s hmap hsj
    rw [List.foldl_cons]
    refine ih (enrichOne s a) (fun idx => (enrichOne_pmcid s a idx).trans (hmap idx)) ?_
    unfold enrichOne
    cases hf : findIdxAux (fun p => p.pmcid == pmcIdOfArticle a) s with
    | none => exact hsj
    | some k =>
      have hkj : k ≠ j := by
        intro hkeq
        subst hkeq
        have hmi := hmap i
        rw [hi] at hmi
        obtain ⟨xi, hxi, hxpmc⟩ : ∃ xi, s.get? i = some xi ∧ xi.pmcid = pi.pmcid := by
          cases hsi : s.get? i with
          | none => rw [hsi] at hmi; simp at hmi
          | some xi =>
            rw [hsi] at hmi
            simp at hmi
            exact ⟨xi, rfl, hmi⟩
        obtain ⟨y, hy, hpy⟩ := findIdxAux_pred _ s k hf
        rw [hsj] at hy
        injection hy with hy
        subst hy
        have hfirst := findIdxAux_first _ s k hf i xi hij hxi
        have hx : (xi.pmcid == pmcIdOfArticle a) = true := by
          rw [hxpmc, hdup]
          exact hpy
        rw [hfirst] at hx
        cases hx
      rw [listSetGetOther s k j _ hkj]
      exact hsj

/-- First of two records sharing pmcid `"7"`. -/
def c10PaperA : Paper := { emptyPaper with pmcid := "7", title := "first" }

/-- Second record with the same pmcid `"7"`. -/
def c10PaperB : Paper := { emptyPaper with pmcid := "7", title := "second" }

/-- A returned PMC article whose sanitized pmcid is `"7"`. -/
def c10Article : PmcArticle :=
  { articleIdPmc := some "PMC7", articleIdPmid := none, articleTitle := some "new",
    abstractPs := [], contribNames := [], journalTitle := none,
    pubDate := none, selfUri := none, extLinks := [] }

/-- C10 witness: with two records sharing pmcid `"7"`, the later duplicate
is untouched by the enrichment pass. -/
theorem C10_witness :
    (enrichAll [c10PaperA, c10PaperB] [c10Article]).get? 1 = some c10PaperB :=
  C10 [c10PaperA, c10PaperB] [c10Article] 0 1 c10PaperA c10PaperB
    (by decide) rfl rfl (by decide)

/-- Fallbacks in `composeDate` are irrelevant once the year is present. -/
theorem composeDate_ne_year (y m d f1 f2 : String) (hy : y ≠ "") :
    composeDate y m d f1 = composeDate y m d f2 := by
  unfold composeDate
  split_ifs <;> simp_all

/-- C1 (amended): during enrichment, each enrichable field that the matched
PMC article actually supplies (a non-empty title text, at least one abstract
paragraph, a non-empty journal-title, a pub-date with a non-empty year)
equals the PMC-schema extraction of §4.2, and `authors` and `pdfUrl` always
do; fields the article does not supply retain the first-pass PubMed value
(title/abstract/source re-trimmed; pubdate kept verbatim, both when the
pub-date element is absent and when it is present with an empty year),
instead of the PMC-schema extraction. `pmcid` and `uid` are preserved. -/
theorem C1_amended (p : Paper) (a : PmcArticle) :
    ((a.articleTitle.getD "") ≠ "" →
      (overlay p a (pmcIdOfArticle a)).title = (normalizePmc a).title)
    ∧ (a.abstractPs ≠ [] →
      (overlay p a (pmcIdOfArticle a)).articletitle = (normalizePmc a).articletitle)
    ∧ (overlay p a (pmcIdOfArticle a)).authors = (normalizePmc a).authors
    ∧ ((a.journalTitle.getD "") ≠ "" →
      (overlay p a (pmcIdOfArticle a)).source = (normalizePmc a).source)
    ∧ (∀ pd, a.pubDate = some pd → jsTrim (pd.year.getD "") ≠ "" →
      (overlay p a (pmcIdOfArticle a)).pubdate = (normalizePmc a).pubdate)
    ∧ (overlay p a (pmcIdOfArticle a)).pdfUrl = (normalizePmc a).pdfUrl
    ∧ (overlay p a (pmcIdOfArticle a)).pmcid = p.pmcid
    ∧ (overlay p a (pmcIdOfArticle a)).uid = p.uid
    ∧ ((a.articleTitle.getD "") = "" →
      (overlay p a (pmcIdOfArticle a)).title = jsTrim p.title)
    ∧ (a.abstractPs = [] →
      (overlay p a (pmcIdOfArticle a)).articletitle = jsTrim p.articletitle)
    ∧ ((a.journalTitle.getD "") = "" →
      (overlay p a (pmcIdOfArticle a)).source = jsTrim p.source)
    ∧ (a.pubDate = none → (overlay p a (pmcIdOfArticle a)).pubdate = p.pubdate)
    ∧ (∀ pd, a.pubDate = some pd → jsTrim (pd.year.getD "") = "" →
      (overlay p a (pmcIdOfArticle a)).pubdate = p.pubdate) := by
  refine ⟨?_, ?_, ?_, ?_, ?_, ?_, ?_, ?_, ?_, ?_, ?_, ?_, ?_⟩
  · intro h; simp [overlay, normalizePmc, jsOr, h]
  · intro h; simp [overlay, normalizePmc, pmcAbstract, h]
  · simp [overlay, normalizePmc]
  · intro h; simp [overlay, normalizePmc, jsOr, h]
  · intro pd hpd hy
    show pmcDate a.pubDate p.pubdate = (normalizePmc a).pubdate
    have : (normalizePmc a).pubdate = pmcDate a.pubDate "" := rfl
    rw [this]
    simp only [pmcDate, hpd]
    exact composeDate_ne_year _ _ _ _ _ hy
  · rfl
  · rfl
  · rfl
  · intro h; simp [overlay, jsOr, h]
  · intro h; simp [overlay, h]
  · intro h; simp [overlay, jsOr, h]
  · intro h
    show pmcDate a.pubDate p.pubdate = p.pubdate
    simp [pmcDate, h]
  · intro pd hpd hy
    show pmcDate a.pubDate p.pubdate = p.pubdate
    simp only [pmcDate, hpd]
    simp [composeDate, hy]

/-- PMC article supplying title, abstract, journal and date. -/
def c1FullArticle : PmcArticle :=
  { articleIdPmc := some "42", articleIdPmid := none,
    articleTitle := some "PMC Title", abstractPs := ["para one", "para two"],
    contribNames := [], journalTitle := some "PMC Journal",
    pubDate := some { year := some "2020", month := some "5", day := none },
    selfUri := none, extLinks := [] }

/-- PMC article whose `pub-date` element is present but has no year. -/
def c1MonthOnlyArticle : PmcArticle :=
  { articleIdPmc := some "43", articleIdPmid := none, articleTitle := none,
    abstractPs := [], contribNames := [], journalTitle := none,
    pubDate := some { year := none, month := some "5", day := none },
    selfUri := none, extLinks := [] }

/-- C1 witness: on an article supplying every field, the overlaid record's
enrichable fields equal the PMC-schema extraction; on a pub-date element
without a year, the record's pubdate is kept verbatim. -/
theorem C1_amended_witness :
    (overlay emptyPaper c1FullArticle (pmcIdOfArticle c1FullArticle)).title
      = (normalizePmc c1FullArticle).title
    ∧ (overlay emptyPaper c1FullArticle (pmcIdOfArticle c1FullArticle)).articletitle
      = (normalizePmc c1FullArticle).articletitle
    ∧ (overlay emptyPaper c1FullArticle (pmcIdOfArticle c1FullArticle)).pubdate
      = (normalizePmc c1FullArticle).pubdate
    ∧ (overlay emptyPaper c1MonthOnlyArticle (pmcIdOfArticle c1MonthOnlyArticle)).pubdate
      = emptyPaper.pubdate :=
  ⟨(C1_amended emptyPaper c1FullArticle).1 (by decide),
   (C1_amended emptyPaper c1FullArticle).2.1 (by decide),
   (C1_amended emptyPaper c1FullArticle).2.2.2.2.1
     { year := some "2020", month := some "5", day := none } rfl (by decide),
   (C1_amended emptyPaper c1MonthOnlyArticle).2.2.2.2.2.2.2.2.2.2.2.2
     { year := none, month := some "5", day := none } rfl (by decide)⟩

/-! ## HTTP layer -/

/-- Outcome of one axios call that threw: `error.response` (upstream status
and body), `error.request` (request sent, no response), and the message. -/
structure AxiosError where
  responseStatus : Option Nat
  responseData : String
  requestMade : Bool
  message : String
deriving DecidableEq

/-- Body of a proxy HTTP response. -/
inductive RespBody where
  | err (msg : String) (details : Option String)
  | searchOk (ids : List String) (total : Int) (retstart : Int) (retmax : Int)
  | papersOk (papers : List Paper) (total : Nat)
deriving DecidableEq

/-- A proxy HTTP response: status code and JSON body. -/
structure HttpResponse where
  status : Nat
  body : RespBody
deriving DecidableEq

/-- The `esearchresult` object of an EUtils JSON response. -/
structure ESearchResult where
  count : Option String
  webenv : Option String
  querykey : Option String
  idlist : Option (List String)
  ERROR : Option String
deriving DecidableEq

/-- Outcome of one esearch call: a status with the parsed
`data.esearchresult` (absent when the JSON lacks it), or a thrown error. -/
inductive Upstream where
  | ok (status : Nat) (esearchresult : Option ESearchResult)
  | fail (e : AxiosError)
deriving DecidableEq

/-- The search endpoint's catch block (src/api/search.js:121-133): upstream
status and body when `error.response` exists, else 500 with a
no-response or generic message. -/
def searchCatch (e : AxiosError) : HttpResponse :=
  match e.responseStatus with
  | some st =>
    ⟨st, .err ("ESearch/ESearch API Error: " ++ toString st) (some e.responseData)⟩
  | none =>
    if e.requestMade then
      ⟨500, .err "No response from ESearch/ESearch API" (some e.message)⟩
    else
      ⟨500, .err "Internal Server Error during search" (some e.message)⟩

/-- The batch endpoint's catch block (src/api/papers.js:335-338): always
500. -/
def papersCatch (e : AxiosError) : HttpResponse :=
  ⟨500, .err "Failed to fetch papers" (some e.message)⟩

/-- The single-paper endpoint's catch block (src/api/paper/[id].js:236-239):
always 500. -/
def paperCatch (e : AxiosError) : HttpResponse :=
  ⟨500, .err "Failed to fetch paper details" (some e.message)⟩

/-- The two supported databases (src/api/search.js:35). -/
def SUPPORTED_DATABASES : List String := ["pubmed", "pmc"]

/-- Query parameters of `GET /api/search`, before defaulting. -/
structure SearchQuery where
  term : Option String
  db : Option String
  retstart : Option String
  retmax : Option String
deriving DecidableEq

/-- Search parameter validation (src/api/search.js:31-48), performed before
any outbound call: term present, supported db, `parseInt`-able non-negative
`retstart`, `parseInt`-able positive `retmax` of at most 10000. -/
def validateSearch (q : SearchQuery) : Except HttpResponse (Int × Int) :=
  if (q.term.getD "") = "" then
    .error ⟨400, .err "Search term is required" none⟩
  else if SUPPORTED_DATABASES.contains (q.db.getD "pmc") = false then
    .error ⟨400, .err "Invalid database. Supported databases: pubmed, pmc" none⟩
  else
    match parseIntJS (q.retstart.getD "0") with
    | none => .error ⟨400, .err "retstart must be a non-negative integer" none⟩
    | some start =>
      if start < 0 then
        .error ⟨400, .err "retstart must be a non-negative integer" none⟩
      else
        match parseIntJS (q.retmax.getD "10") with
        | none => .error ⟨400, .err "retmax must be a positive integer, max 10000" none⟩
        | some maxv =>
          if maxv ≤ 0 ∨ maxv > 10000 then
            .error ⟨400, .err "retmax must be a positive integer, max 10000" none⟩
          else .ok (start, maxv)

/-- `(esearchResult && parseInt(esearchResult.count, 10)) || 0`. -/
def countOf (b : ESearchResult) : Int :=
  (b.count.bind parseIntJS).getD 0

/-- The search flow after validation (src/api/search.js:50-119): first
history-creating call, embedded-error and token checks, the
`start >= count` short-circuit, then the second slice call. A missing
`esearchresult` makes the later field access throw, which the generic
catch branch turns into a 500 (its runtime message is abbreviated here). -/
def searchStep (start maxv : Int) (up1 up2 : Upstream) : HttpResponse × Nat :=
  match up1 with
  | .fail e => (searchCatch e, 1)
  | .ok st body? =>
    if st ≠ 200 then
      (⟨st, .err ("ESearch History API Error: " ++ toString st) none⟩, 1)
    else
      match body? with
      | none => (⟨500, .err "Internal Server Error during search" (some "TypeError")⟩, 1)
      | some body =>
        if jsTruthy body.ERROR then
          (⟨500, .err ("ESearch History API Error: " ++ (body.ERROR.getD "")) none⟩, 1)
        else if ¬ (jsTruthy body.webenv = true ∧ jsTruthy body.querykey = true) then
          (⟨500, .err
            "ESearch History API did not return required WebEnv or QueryKey for pagination."
            none⟩, 1)
        else if countOf body ≤ start then
          (⟨200, .searchOk [] (countOf body) start maxv⟩, 1)
        else
          match up2 with
          | .fail e => (searchCatch e, 2)
          | .ok st2 body2? =>
            if st2 ≠ 200 then
              (⟨st2, .err ("ESearch API Error for specific IDs: " ++ toString st2) none⟩, 2)
            else
              match body2? with
              | none =>
                (⟨500, .err "Internal Server Error during search" (some "TypeError")⟩, 2)
              | some body2 =>
                if jsTruthy body2.ERROR then
                  (⟨500, .err ("ESearch API Error for specific IDs: "
                    ++ (body2.ERROR.getD "")) none⟩, 2)
                else
                  (⟨200, .searchOk (body2.idlist.getD []) (countOf body) start maxv⟩, 2)

/-- `GET /api/search` (src/api/search.js:8-134) as a function of the query
and of the two upstream outcomes; the second component counts outbound
calls actually issued. -/
def searchHandler (q : SearchQuery) (up1 up2 : Upstream) : HttpResponse × Nat :=
  match validateSearch q with
  | .error r => (r, 0)
  | .ok (start, maxv) => searchStep start maxv up1 up2

/-- Body of `POST /api/papers`. -/
structure PapersBody where
  ids : Option (List String)
  db : Option String
deriving DecidableEq

/-- A parsed efetch XML document: its `PubmedArticle` and `article`
elements in document order. -/
structure XmlDoc where
  pubmedArticles : List PubmedArticle
  pmcArticles : List PmcArticle
deriving DecidableEq

/-- Outcome of one efetch call. -/
inductive FetchOutcome where
  | ok (doc : XmlDoc)
  | fail (e : AxiosError)
deriving DecidableEq

/-- `res.json({ papers, total: papers.length })` (src/api/papers.js:333). -/
def okPapers (ps : List Paper) : HttpResponse :=
  ⟨200, .papersOk ps ps.length⟩

/-- First-pass records of a pubmed batch. -/
def pubmedPapersOf (doc : XmlDoc) : List Paper :=
  doc.pubmedArticles.map normalizePubmed

/-- The pubmed side of the batch endpoint after the primary fetch: collect
the truthy pmcids, and when any exist run the enrichment fetch and loop
(src/api/papers.js:240-331). -/
def papersPubmed (doc : XmlDoc) (up2 : FetchOutcome) : HttpResponse × Nat :=
  if ((pubmedPapersOf doc).filter (fun p => p.pmcid != "")).map Paper.pmcid = [] then
    (okPapers (pubmedPapersOf doc), 1)
  else
    match up2 with
    | .fail e => (papersCatch e, 2)
    | .ok pmcDoc => (okPapers (enrichAll (pubmedPapersOf doc) pmcDoc.pmcArticles), 2)

/-- `POST /api/papers` (src/api/papers.js:33-339) as a function of the
request body, the primary efetch outcome and the conditional PMC
enrichment fetch outcome; the second component counts outbound calls.
After the `SUPPORTED_DATABASES` check `db` is `pubmed` or `pmc`, so the
dead duplicate `else` branch of the parser is dropped. -/
def papersHandler (b : PapersBody) (up1 up2 : FetchOutcome) : HttpResponse × Nat :=
  match b.ids with
  | none => (⟨400, .err "IDs array is required and cannot be empty" none⟩, 0)
  | some ids =>
    if ids = [] then (⟨400, .err "IDs array is required and cannot be empty" none⟩, 0)
    else if SUPPORTED_DATABASES.contains (b.db.getD "pmc") = false then
      (⟨400, .err "Invalid database. Supported databases: pubmed, pmc" none⟩, 0)
    else if (ids.map cleanPmcId).filter (fun id => id != "" && jsTrim id != "") = [] then
      (⟨400, .err "No valid IDs provided after cleaning." none⟩, 0)
    else
      match up1 with
      | .fail e => (papersCatch e, 1)
      | .ok doc =>
        if (b.db.getD "pmc") = "pubmed" then papersPubmed doc up2
        else (okPapers (doc.pmcArticles.map normalizePmc), 1)

/-- C6: when validation passed, the first response is a 200 carrying both
session tokens and no embedded error, and the parsed `retstart` is at least
the upstream count, the search endpoint succeeds with an empty ID page and
the real count, issuing no second upstream call (the result is the same for
every `up2`, and the call count is 1). -/
theorem C6 (q : SearchQuery) (up2 : Upstream) (start maxv : Int)
    (body : ESearchResult)
    (hval : validateSearch q = .ok (start, maxv))
    (herr : jsTruthy body.ERROR = false)
    (hweb : jsTruthy body.webenv = true)
    (hqk : jsTruthy body.querykey = true)
    (hcnt : countOf body ≤ start) :
    searchHandler q (.ok 200 (some body)) up2
      = (⟨200, .searchOk [] (countOf body) start maxv⟩, 1) := by
  simp [searchHandler, hval, searchStep, herr, hweb, hqk, hcnt]

/-- Query for the C6 witness. -/
def c6Query : SearchQuery :=
  { term := some "cancer", db := some "pmc", retstart := some "10", retmax := some "2" }

/-- First upstream response for the C6 witness: count 5, both tokens. -/
def c6Body : ESearchResult :=
  { count := some "5", webenv := some "W1", querykey := some "1",
    idlist := none, ERROR := none }

/-- C6 witness: retstart 10 ≥ count 5 short-circuits after one call. -/
theorem C6_witness :
    searchHandler c6Query (.ok 200 (some c6Body)) (.fail ⟨none, "", false, ""⟩)
      = (⟨200, .searchOk [] (countOf c6Body) 10 2⟩, 1) :=
  C6 c6Query (.fail ⟨none, "", false, ""⟩) 10 2 c6Body rfl (by decide)
    (by decide) (by decide) (by decide)

/-- The claim's reading of a valid `retstart`: parses, and non-negative. -/
def validRetstart (s : String) : Bool :=
  match parseIntJS s with
  | some n => if 0 ≤ n then true else false
  | none => false

/-- The claim's reading of a valid `retmax`: parses, positive, ≤ 10000. -/
def validRetmax (s : String) : Bool :=
  match parseIntJS s with
  | some n => if 0 < n ∧ n ≤ 10000 then true else false
  | none => false

/-- Every rejection produced by the search validation carries status 400. -/
theorem validateSearch_err_status (q : SearchQuery) (r : HttpResponse)
    (h : validateSearch q = .error r) : r.status = 400 := by
  unfold validateSearch at h
  repeat' split at h
  all_goals first
    | (cases h; rfl)
    | exact (Except.noConfusion h)

/-- A request that survives the search validation had a supported db and
valid pagination parameters. -/
theorem validateSearch_ok_valid (q : SearchQuery) (start maxv : Int)
    (h : validateSearch q = .ok (start, maxv)) :
    SUPPORTED_DATABASES.contains (q.db.getD "pmc") = true
    ∧ validRetstart (q.retstart.getD "0") = true
    ∧ validRetmax (q.retmax.getD "10") = true := by
  unfold validateSearch at h
  repeat' split at h
  all_goals try exact (Except.noConfusion h)
  simp_all [validRetstart, validRetmax, not_lt, not_or, not_le]

/-- C7: an unsupported db, an invalid `retstart`, or an invalid `retmax`
(zero, negative, unparsable or above 10000) makes the search endpoint
answer 400 with zero outbound NCBI calls, whatever the upstream would have
replied. -/
theorem C7 (q : SearchQuery) (up1 up2 : Upstream)
    (h : SUPPORTED_DATABASES.contains (q.db.getD "pmc") = false
       ∨ validRetstart (q.retstart.getD "0") = false
       ∨ validRetmax (q.retmax.getD "10") = false) :
    (searchHandler q up1 up2).1.status = 400 ∧ (searchHandler q up1 up2).2 = 0 := by
  cases hok : validateSearch q with
  | error r =>
    have h400 := validateSearch_err_status q r hok
    constructor <;> simp [searchHandler, hok, h400]
  | ok p =>
    exfalso
    obtain ⟨s0, m0⟩ := p
    obtain ⟨h1, h2, h3⟩ := validateSearch_ok_valid q s0 m0 hok
    rcases h with hx | hx | hx <;> simp_all

/-- Query for the C7 witness: `retmax=0`. -/
def c7Query : SearchQuery :=
  { term := some "x", db := some "pmc", retstart := some "0", retmax := some "0" }

/-- C7 witness: `retmax=0` yields a 400 and no outbound call. -/
theorem C7_witness :
    (searchHandler c7Query (.fail ⟨none, "", false, ""⟩)
        (.fail ⟨none, "", false, ""⟩)).1.status = 400
    ∧ (searchHandler c7Query (.fail ⟨none, "", false, ""⟩)
        (.fail ⟨none, "", false, ""⟩)).2 = 0 :=
  C7 c7Query (.fail ⟨none, "", false, ""⟩) (.fail ⟨none, "", false, ""⟩)
    (Or.inr (Or.inr (by decide)))

/-- Transport error with an upstream 404 attached. -/
def c8Err : AxiosError :=
  { responseStatus := some 404, responseData := "upstream body",
    requestMade := true, message := "Request failed with status code 404" }

/-- C8: the claim is refuted on the batch endpoint: a transport error that
carries upstream status 404 is surfaced as 500 (`papersCatch` ignores
`error.response.status`), not as the upstream's 404. -/
theorem C8_counterexample :
    c8Err.responseStatus = some 404
    ∧ (papersHandler { ids := some ["1"], db := some "pmc" } (.fail c8Err)
        (.ok ⟨[], []⟩)).1.status = 500
    ∧ (papersHandler { ids := some ["1"], db := some "pmc" } (.fail c8Err)
        (.ok ⟨[], []⟩)).1.status ≠ 404 := by
  decide

/-- C8 (amended): only the search endpoint surfaces a transport error with
the upstream's status code when one is available (else 500, with the
captured no-response or generic detail); the batch-papers and single-paper
endpoints surface every transport error as 500 with the error message as
detail, regardless of any upstream status. -/
theorem C8_amended :
    (∀ e st, e.responseStatus = some st →
      (searchCatch e).status = st
      ∧ (searchCatch e).body
          = .err ("ESearch/ESearch API Error: " ++ toString st) (some e.responseData))
    ∧ (∀ e, e.responseStatus = none → e.requestMade = true →
      searchCatch e = ⟨500, .err "No response from ESearch/ESearch API" (some e.message)⟩)
    ∧ (∀ e, e.responseStatus = none → e.requestMade = false →
      searchCatch e = ⟨500, .err "Internal Server Error during search" (some e.message)⟩)
    ∧ (∀ q start maxv e up2, validateSearch q = .ok (start, maxv) →
      searchHandler q (.fail e) up2 = (searchCatch e, 1))
    ∧ (∀ e, (papersCatch e).status = 500
        ∧ (papersCatch e).body = .err "Failed to fetch papers" (some e.message))
    ∧ (∀ e, (paperCatch e).status = 500
        ∧ (paperCatch e).body = .err "Failed to fetch paper details" (some e.message)) := by
  refine ⟨?_, ?_, ?_, ?_, ?_, ?_⟩
  · intro e st h; simp [searchCatch, h]
  · intro e h1 h2; simp [searchCatch, h1, h2]
  · intro e h1 h2; simp [searchCatch, h1, h2]
  · intro q start maxv e up2 hval; simp [searchHandler, hval, searchStep]
  · intro e; exact ⟨rfl, rfl⟩
  · intro e; exact ⟨rfl, rfl⟩

/-- C8 witness: the search catch surfaces 404; the papers catch gives 500. -/
theorem C8_amended_witness :
    (searchCatch c8Err).status = 404 ∧ (papersCatch c8Err).status = 500 :=
  ⟨(C8_amended.1 c8Err 404 rfl).1, (C8_amended.2.2.2.2.1 c8Err).1⟩

/-- The pubmed sub-flow answers either an error body or `okPapers`. -/
theorem papersPubmed_shape (doc : XmlDoc) (up2 : FetchOutcome) :
    (∃ m d, (papersPubmed doc up2).1.body = .err m d)
    ∨ ∃ ps, (papersPubmed doc up2).1 = okPapers ps := by
  unfold papersPubmed
  repeat' split
  all_goals try exact Or.inl ⟨_, _, rfl⟩
  all_goals try exact Or.inr ⟨_, rfl⟩

/-- Every response of the batch handler is either an error body or
`okPapers` of some record list. -/
theorem papersHandler_shape (b : PapersBody) (up1 up2 : FetchOutcome) :
    (∃ m d, (papersHandler b up1 up2).1.body = .err m d)
    ∨ ∃ ps, (papersHandler b up1 up2).1 = okPapers ps := by
  unfold papersHandler
  repeat' split
  all_goals try exact Or.inl ⟨_, _, rfl⟩
  all_goals try exact Or.inr ⟨_, rfl⟩
  all_goals exact papersPubmed_shape _ _

/-- C9: a successful batch response reports `total` equal to the length of
the returned `papers` array (the parsed article count), independent of how
many IDs were supplied. -/
theorem C9 (b : PapersBody) (up1 up2 : FetchOutcome) (papers : List Paper)
    (total : Nat)
    (h : (papersHandler b up1 up2).1.body = .papersOk papers total) :
    total = papers.length := by
  rcases papersHandler_shape b up1 up2 with ⟨m, d, hb⟩ | ⟨ps, hp⟩
  · rw [hb] at h; cases h
  · rw [hp] at h
    simp only [okPapers] at h
    injection h with h1 h2
    subst h1
    exact h2.symm

/-- C9 witness: one ID supplied but zero articles parsed gives `total = 0`,
the length of the empty papers array — not the supplied ID count. -/
theorem C9_witness :
    (papersHandler { ids := some ["1"], db := some "pmc" } (.ok ⟨[], []⟩)
        (.ok ⟨[], []⟩)).1.body = .papersOk [] 0
    ∧ (0 : Nat) = ([] : List Paper).length :=
  ⟨by decide,
   C9 { ids := some ["1"], db := some "pmc" } (.ok ⟨[], []⟩) (.ok ⟨[], []⟩) [] 0
     (by decide)⟩

/-- PubMed article whose record resolves pmcid `"1"` and title
`"Old Title"`. -/
def c1PubmedArticle : PubmedArticle :=
  { pmid := some "10", articleTitle := some "Old Title", abstractTexts := [],
    authorList := none, medlineTA := none, journalTitle := none,
    pubDate := none, pubStatusYear := none,
    articleIdList := some [{ idType := some "pmc", text := "PMC1" }] }

/-- Matching returned PMC article with pmcid `"1"` and no `article-title`. -/
def c1PmcArticle : PmcArticle :=
  { articleIdPmc := some "1", articleIdPmid := none, articleTitle := none,
    abstractPs := [], contribNames := [], journalTitle := none,
    pubDate := none, selfUri := none, extLinks := [] }

/-- The record the pipeline produces for this batch. -/
def c1FinalPaper : Paper :=
  overlay (normalizePubmed c1PubmedArticle) c1PmcArticle (pmcIdOfArticle c1PmcArticle)

/-- C1: the claim is refuted: in a pubmed batch whose only record resolves
the non-empty pmcid `"1"` and is matched by a returned PMC article, the
final `title` is the first-pass PubMed value `"Old Title"`, while the
PMC-schema extraction of that article (its `article-title` is absent) is
`""` — the enrichment falls back to PubMed values instead of always using
the PMC-schema extraction. -/
theorem C1_counterexample :
    (normalizePubmed c1PubmedArticle).pmcid = "1"
    ∧ (papersHandler { ids := some ["123"], db := some "pubmed" }
        (.ok ⟨[c1PubmedArticle], []⟩) (.ok ⟨[], [c1PmcArticle]⟩)).1.body
      = .papersOk [c1FinalPaper] 1
    ∧ c1FinalPaper.pmcid = (normalizePmc c1PmcArticle).pmcid
    ∧ c1FinalPaper.title = "Old Title"
    ∧ (normalizePmc c1PmcArticle).title = "" := by
  decide
